import Mathlib

/-!
Verification of the marketing-production backend services:
feed validation, platform export, production-matrix grouping,
production-plan generation and the custom spec store.

Each service is shallowly embedded as executable Lean definitions that
mirror the Python source (`app/services/*.py`), and the stated properties
are proved against those definitions.
-/

set_option maxHeartbeats 1000000

namespace Briefing

/-! ## Generic helpers: Python-style association lists and truthiness -/

/-- First-match lookup in an association list (models Python `dict` access,
keys are unique by construction wherever this is used). -/
def alookup {α : Type} : List (String × α) → String → Option α
  | [], _ => none
  | (k, v) :: rest, key => if k = key then some v else alookup rest key

/-- Update every entry carrying `key` (on unique-key lists this is exactly
Python `d[key] = f d[key]`). -/
def aupdate {α : Type} (l : List (String × α)) (key : String) (f : α → α) :
    List (String × α) :=
  l.map (fun p => if p.1 = key then (p.1, f p.2) else p)

/-- Pair every element with its index, starting at `i0` (models `enumerate`). -/
def indexed {α : Type} : Nat → List α → List (Nat × α)
  | _, [] => []
  | i, x :: xs => (i, x) :: indexed (i + 1) xs

/-- Minimum of an integer list, `none` on the empty list (models Python
`min(lst)` guarded by a non-emptiness check). -/
def listMin : List Int → Option Int
  | [] => none
  | x :: xs => some (xs.foldl min x)

/-- Python truthiness of an optional string: `None` and `""` are falsy. -/
def truthyStr : Option String → Option String
  | none => none
  | some s => if s = "" then none else some s

/-- Python `a or b` on optional strings. -/
def orStr (a b : Option String) : Option String :=
  match truthyStr a with
  | some s => some s
  | none => truthyStr b

/-- Python truthiness of an optional integer: `None` and `0` are falsy. -/
def truthyInt : Option Int → Option Int
  | none => none
  | some n => if n = 0 then none else some n

/-- Python `a or b` on plain strings. -/
def orS (a b : String) : String :=
  if a = "" then b else a

/-! Character-list implementations of the string operations the sources use
(`upper`, `lower`, `replace` with a one-character needle, `split` on a
one-character separator, `strip`, `startswith`).  They compute the same
functions as the runtime primitives but by structural recursion, so that
concrete runs reduce inside the kernel. -/

/-- `s.upper()`. -/
def toUpperS (s : String) : String :=
  ⟨s.data.map Char.toUpper⟩

/-- `s.lower()`. -/
def toLowerS (s : String) : String :=
  ⟨s.data.map Char.toLower⟩

/-- One step of `s.replace(pat, rep)` for a single-character needle. -/
def replaceCharList (pat : Char) (rep : List Char) : List Char → List Char
  | [] => []
  | c :: cs => (if c = pat then rep else [c]) ++ replaceCharList pat rep cs

/-- Python `s.replace(pat, rep)` where `pat` is a single character (the only
shape the sources use). -/
def pyReplaceChar (s : String) (pat : Char) (rep : String) : String :=
  ⟨replaceCharList pat rep.data s.data⟩

/-- `split` on a single-character separator (list form). -/
def splitCharList (sep : Char) : List Char → List (List Char)
  | [] => [[]]
  | c :: cs =>
    match splitCharList sep cs with
    | h :: t => if c = sep then [] :: h :: t else (c :: h) :: t
    | [] => if c = sep then [[], []] else [[c]]

/-- Python `s.split(sep)` for a one-character separator (the sources only
split on `"."`, `"?"`, `","` and `" "`). -/
def splitOnChar (s : String) (sep : Char) : List String :=
  (splitCharList sep s.data).map (fun l => ⟨l⟩)

/-- Python `s.strip()` (ASCII whitespace). -/
def trimS (s : String) : String :=
  ⟨((s.data.dropWhile Char.isWhitespace).reverse.dropWhile
    Char.isWhitespace).reverse⟩

/-- Whether the first character list is a leading segment of the second. -/
def leadsList : List Char → List Char → Bool
  | [], _ => true
  | _ :: _, [] => false
  | c :: cs, d :: ds => c = d && leadsList cs ds

/-- Python `s.startswith(pre)`. -/
def startsWithS (s pre : String) : Bool :=
  leadsList pre.data s.data

end Briefing

namespace FeedValidator

/-! ## Feed Validator (`app/services/feed_validator.py`) -/

inductive ValidationSeverity where
  | error
  | warning
  | info
deriving DecidableEq, Repr

structure ValidationIssue where
  row_id : String
  field : String
  severity : ValidationSeverity
  message : String
  suggestion : Option String := none
deriving DecidableEq, Repr

structure ValidationResult where
  is_valid : Bool
  total_rows : Nat
  errors : Nat
  warnings : Nat
  issues : List ValidationIssue
  platform : String
  summary : String
deriving DecidableEq, Repr

structure PlatformConstraints where
  max_headline_length : Nat
  max_body_length : Nat
  max_cta_length : Nat
  required_fields : List String
  image_formats : List String
  video_formats : List String := []
  max_file_size_kb : Option Nat := none
  max_video_length_seconds : Option Nat := none
deriving DecidableEq, Repr

def flashtalkingConstraints : PlatformConstraints :=
  { max_headline_length := 40
    max_body_length := 90
    max_cta_length := 25
    required_fields := ["creative_id", "creative_name", "headline", "click_url"]
    image_formats := ["jpg", "jpeg", "png", "gif"]
    video_formats := ["mp4", "webm"]
    max_file_size_kb := some 200 }

def innovidConstraints : PlatformConstraints :=
  { max_headline_length := 50
    max_body_length := 120
    max_cta_length := 30
    required_fields := ["creative_id", "creative_name", "click_through_url"]
    image_formats := ["jpg", "jpeg", "png"]
    video_formats := ["mp4"]
    max_video_length_seconds := some 60 }

def celtraConstraints : PlatformConstraints :=
  { max_headline_length := 45
    max_body_length := 100
    max_cta_length := 20
    required_fields := ["feedId", "creativeName"]
    image_formats := ["jpg", "jpeg", "png", "gif", "svg"]
    max_file_size_kb := some 300 }

def storyteqConstraints : PlatformConstraints :=
  { max_headline_length := 60
    max_body_length := 150
    max_cta_length := 30
    required_fields := ["template_id", "output_name"]
    image_formats := ["jpg", "jpeg", "png"]
    video_formats := ["mp4", "mov"] }

def googleStudioConstraints : PlatformConstraints :=
  { max_headline_length := 30
    max_body_length := 90
    max_cta_length := 15
    required_fields := ["Creative Name", "Exit URL"]
    image_formats := ["jpg", "jpeg", "png", "gif"]
    max_file_size_kb := some 150 }

/-- Keys of `PLATFORM_CONSTRAINTS` in dict insertion order. -/
def platformNames : List String :=
  ["flashtalking", "innovid", "celtra", "storyteq", "google_studio"]

/-- The `PLATFORM_CONSTRAINTS` table. -/
def platformConstraints (p : String) : Option PlatformConstraints :=
  if p = "flashtalking" then some flashtalkingConstraints
  else if p = "innovid" then some innovidConstraints
  else if p = "celtra" then some celtraConstraints
  else if p = "storyteq" then some storyteqConstraints
  else if p = "google_studio" then some googleStudioConstraints
  else none

/-- `validate_text_length`.  The source compares `len(text) > max_length * 0.9`
in floating point; for every limit appearing in the constraints table the
float product `max_length * 0.9` rounds to the exact rational, so the
comparison is equivalent to `10 * len > 9 * max_length`, which is how it is
embedded here. -/
def validate_text_length (text : String) (max_length : Nat)
    (field_name row_id : String) : Option ValidationIssue :=
  if text = "" then none
  else if text.length > max_length then
    some { row_id := row_id
           field := field_name
           severity := .error
           message := field_name ++ " exceeds maximum length of " ++
             toString max_length ++ " characters (current: " ++
             toString text.length ++ ")"
           suggestion := some ("Shorten to " ++ toString max_length ++
             " characters or less") }
  else if 10 * text.length > 9 * max_length then
    some { row_id := row_id
           field := field_name
           severity := .warning
           message := field_name ++ " is close to maximum length (" ++
             toString text.length ++ "/" ++ toString max_length ++ ")"
           suggestion := some "Consider shortening for readability" }
  else none

/-- `validate_url`. -/
def validate_url (url : String) (field_name row_id : String)
    (required : Bool) : Option ValidationIssue :=
  if url = "" then
    if required then
      some { row_id := row_id
             field := field_name
             severity := .error
             message := field_name ++ " is required but missing"
             suggestion := some "Add a valid URL" }
    else none
  else if !(Briefing.startsWithS url "http://" || Briefing.startsWithS url "https://") then
    some { row_id := row_id
           field := field_name
           severity := .error
           message := field_name ++ " must start with http:// or https://"
           suggestion := some "Add protocol prefix to URL" }
  else none

/-- `validate_image_format`: extension is the last `.`-separated component,
lower-cased, with any query string stripped. -/
def validate_image_format (url : String) (allowed_formats : List String)
    (field_name row_id : String) : Option ValidationIssue :=
  if url = "" then none
  else
    let extension :=
      (Briefing.splitOnChar
        (Briefing.toLowerS ((Briefing.splitOnChar url '.').getLastD url))
        '?').headD ""
    if allowed_formats.contains extension then none
    else
      some { row_id := row_id
             field := field_name
             severity := .warning
             message := "Image format \x27." ++ extension ++
               "\x27 may not be supported. Allowed: " ++
               String.intercalate ", " allowed_formats
             suggestion := some ("Use one of: " ++
               String.intercalate ", " allowed_formats) }

/-- Python `s.lstrip(\x22#\x22)`: drop every leading `#`. -/
def lstripHash (s : String) : String :=
  ⟨s.data.dropWhile (· = '#')⟩

/-- Hexadecimal digit test. -/
def isHexDigitChar (c : Char) : Bool :=
  c.isDigit || ('a' ≤ c && c ≤ 'f') || ('A' ≤ c && c ≤ 'F')

/-- Tail of a hex-digit run: single underscores are allowed strictly between
digits (Python int-literal rule). -/
def hexTail : List Char → Bool
  | [] => true
  | '_' :: c :: rest => isHexDigitChar c && hexTail (c :: rest)
  | c :: rest => isHexDigitChar c && hexTail rest

/-- A non-empty hex-digit run. -/
def hexBody : List Char → Bool
  | [] => false
  | c :: rest => isHexDigitChar c && hexTail rest

/-- Models success of Python `int(s, 16)`: optional surrounding whitespace,
optional sign, optional `0x`/`0X` prefix (with at most one underscore after
it), then hex digits with single underscores between digits. -/
def pyIntHexOk (s : String) : Bool :=
  let cs := (Briefing.trimS s).data
  let cs := match cs with
    | '+' :: r => r
    | '-' :: r => r
    | r => r
  let cs := match cs with
    | '0' :: 'x' :: '_' :: r => r
    | '0' :: 'x' :: r => r
    | '0' :: 'X' :: '_' :: r => r
    | '0' :: 'X' :: r => r
    | r => r
  hexBody cs

/-- `validate_color_hex`. -/
def validate_color_hex (color : String) (field_name row_id : String) :
    Option ValidationIssue :=
  if color = "" then none
  else
    let c := lstripHash color
    if ¬(c.length = 3 ∨ c.length = 6) then
      some { row_id := row_id
             field := field_name
             severity := .error
             message := "Invalid hex color format: " ++ c
             suggestion := some "Use format #RRGGBB or #RGB" }
    else if ¬ pyIntHexOk c then
      some { row_id := row_id
             field := field_name
             severity := .error
             message := "Invalid hex color characters: " ++ c
             suggestion := some "Use only hexadecimal characters (0-9, A-F)" }
    else none

/-- A feed row: a string-keyed record of string values (the validator only
ever reads string-typed entries). -/
def Row : Type := List (String × String)

instance : DecidableEq Row := by
  unfold Row
  infer_instance

/-- Python `row.get(k)`. -/
def rowGet (row : Row) (k : String) : Option String :=
  Briefing.alookup row k

/-- Python `k in row`. -/
def rowHas (row : Row) (k : String) : Bool :=
  (rowGet row k).isSome

/-- Python `row.get(k)` coerced through truthiness (`None`/`""` falsy). -/
def rowTruthy (row : Row) (k : String) : Option String :=
  Briefing.truthyStr (rowGet row k)

/-- Python `rows.index(row)`: index of the first equal row. -/
def indexOfRow (rows : List Row) (row : Row) : Nat :=
  match rows with
  | [] => 0
  | r :: rest => if r = row then 0 else indexOfRow rest row + 1

def headline_fields : List String := ["headline", "Headline", "copy_slot_a_text"]

def body_fields : List String := ["body", "description", "Body Copy", "copy_slot_b_text"]

def cta_fields : List String := ["cta", "cta_text", "CTA", "cta_button_text", "ctaLabel"]

def url_fields : List String :=
  ["click_url", "Click URL", "destination_url", "clickUrl",
   "click_through_url", "Exit URL"]

def image_fields : List String :=
  ["asset_slot_a_path", "asset_slot_b_path", "asset_slot_c_path",
   "Image 1 URL", "Image 2 URL", "heroImage", "image_1", "image_2"]

def color_fields : List String :=
  ["font_color_hex", "cta_bg_color_hex", "background_color_hex",
   "Background Color", "Font Color", "textColor", "backgroundColor"]

/-- The per-row body of the `validate_feed` loop. -/
def rowIssues (constraints : PlatformConstraints) (rows : List Row)
    (row : Row) : List ValidationIssue :=
  let row_id :=
    match rowTruthy row "row_id" with
    | some v => v
    | none =>
      match rowTruthy row "creative_id" with
      | some v => v
      | none =>
        match rowTruthy row "feedId" with
        | some v => v
        | none => toString (indexOfRow rows row)
  let requiredIssues := constraints.required_fields.filterMap fun field =>
    if rowTruthy row field = none then
      some { row_id := row_id
             field := field
             severity := .error
             message := "Required field \x27" ++ field ++ "\x27 is missing"
             suggestion := some ("Add value for " ++ field) }
    else none
  let headlineIssues := headline_fields.filterMap fun field =>
    if rowHas row field then
      validate_text_length ((rowGet row field).getD "")
        constraints.max_headline_length field row_id
    else none
  let bodyIssues := body_fields.filterMap fun field =>
    if rowHas row field then
      validate_text_length ((rowGet row field).getD "")
        constraints.max_body_length field row_id
    else none
  let ctaIssues := cta_fields.filterMap fun field =>
    if rowHas row field then
      validate_text_length ((rowGet row field).getD "")
        constraints.max_cta_length field row_id
    else none
  let urlIssues := url_fields.filterMap fun field =>
    if rowHas row field then
      validate_url ((rowGet row field).getD "") field row_id
        (constraints.required_fields.contains field)
    else none
  let imageIssues := image_fields.filterMap fun field =>
    if rowHas row field && ((rowGet row field).getD "") ≠ "" then
      validate_image_format ((rowGet row field).getD "")
        constraints.image_formats field row_id
    else none
  let colorIssues := color_fields.filterMap fun field =>
    if rowHas row field && ((rowGet row field).getD "") ≠ "" then
      validate_color_hex ((rowGet row field).getD "") field row_id
    else none
  requiredIssues ++ headlineIssues ++ bodyIssues ++ ctaIssues ++
    urlIssues ++ imageIssues ++ colorIssues

/-- `validate_feed`. -/
def validate_feed (rows : List Row) (platform : String) : ValidationResult :=
  match platformConstraints platform with
  | none =>
    { is_valid := false
      total_rows := rows.length
      errors := 1
      warnings := 0
      issues := [{ row_id := ""
                   field := "platform"
                   severity := .error
                   message := "Unknown platform: " ++ platform
                   suggestion := some ("Use one of: " ++
                     String.intercalate ", " platformNames) }]
      platform := platform
      summary := "Unknown platform: " ++ platform }
  | some constraints =>
    let issues := rows.foldl (fun acc row => acc ++ rowIssues constraints rows row) []
    let errors := (issues.filter (fun i => i.severity = .error)).length
    let warnings := (issues.filter (fun i => i.severity = .warning)).length
    let summary :=
      if errors = 0 ∧ warnings = 0 then
        "Feed is valid for " ++ platform ++ ". " ++ toString rows.length ++
          " rows passed all checks."
      else if errors = 0 then
        "Feed is valid with " ++ toString warnings ++
          " warnings. Review recommended."
      else
        "Feed has " ++ toString errors ++
          " errors that must be fixed before export."
    { is_valid := errors = 0
      total_rows := rows.length
      errors := errors
      warnings := warnings
      issues := issues
      platform := platform
      summary := summary }

/-- Python `round(0.95 * m)` for the limits of the constraints table:
the float product rounds to the exact rational `19 * m / 20`, and `round`
uses round-half-to-even. -/
def round95 (m : Nat) : Nat :=
  let n := 19 * m
  let q := n / 20
  let r := n % 20
  if r < 10 then q
  else if r > 10 then q + 1
  else if q % 2 = 0 then q else q + 1

end FeedValidator

namespace MatrixBuilder

/-! ## Matrix Builder (`app/services/matrix_builder.py`)

`MatrixBuilder.group_specs_by_creative` receives a list of loosely shaped
spec dicts; the dict is embedded as a record of optional fields (an absent
key is `none`), covering exactly the keys the source reads. -/

structure SpecDict where
  dimensions : Option String := none
  width : Option String := none
  height : Option String := none
  file_type : Option String := none
  media_type : Option String := none
  aspect_ratio : Option String := none
  orientation : Option String := none
  id : Option String := none
  spec_id : Option String := none
  platform_name : Option String := none
  platform : Option String := none
  format_name : Option String := none
  placement : Option String := none
  safe_zone_notes : Option String := none
  notes : Option String := none
  safe_zone : Option String := none
  max_duration : Option Int := none
  max_duration_seconds : Option Int := none
  file_size_limit_kb : Option Int := none
deriving DecidableEq, Repr

/-- `dimensions` normalisation: explicit `dimensions`, else `f"{w}x{h}"`
when both `width` and `height` are truthy. -/
def normDimensions (s : SpecDict) : Option String :=
  match Briefing.truthyStr s.dimensions with
  | some d => some d
  | none =>
    match Briefing.truthyStr s.width, Briefing.truthyStr s.height with
    | some w, some h => some (w ++ "x" ++ h)
    | _, _ => none

/-- `file_type or media_type or "asset"` (never empty). -/
def fileTypeOf (s : SpecDict) : String :=
  (Briefing.orStr s.file_type s.media_type).getD "asset"

/-- `aspect_ratio or orientation or ""`. -/
def aspectRatioOf (s : SpecDict) : String :=
  (Briefing.orStr s.aspect_ratio s.orientation).getD ""

/-- `platform_name or platform or "Unknown"`. -/
def platformNameOf (s : SpecDict) : String :=
  (Briefing.orStr s.platform_name s.platform).getD "Unknown"

/-- `id or spec_id or f"SPEC-{idx+1}"`. -/
def specIdOf (idx : Nat) (s : SpecDict) : String :=
  (Briefing.orStr s.id s.spec_id).getD ("SPEC-" ++ toString (idx + 1))

/-- `format_name or placement or ""`. -/
def formatNameOf (s : SpecDict) : String :=
  (Briefing.orStr s.format_name s.placement).getD ""

/-- `safe_zone_notes or notes or safe_zone or ""`. -/
def safeNotesOf (s : SpecDict) : String :=
  (Briefing.orStr (Briefing.orStr s.safe_zone_notes s.notes) s.safe_zone).getD ""

/-- The resolved numeric duration: the source computes
`max_duration = spec.get("max_duration") or spec.get("max_duration_seconds")`
and every later use guards it with its own truthiness, so `0` and an absent
key behave identically (no duration). -/
def resolveDur (s : SpecDict) : Option Int :=
  match Briefing.truthyInt s.max_duration with
  | some d => some d
  | none => Briefing.truthyInt s.max_duration_seconds

/-- `key_dimensions = dimensions or "GENERIC"`. -/
def keyDims (s : SpecDict) : String :=
  (normDimensions s).getD "GENERIC"

/-- `group_key = f"{key_dimensions}_{key_file}_{creative_concept}"`. -/
def groupKey (concept : String) (s : SpecDict) : String :=
  keyDims s ++ "_" ++ fileTypeOf s ++ "_" ++ concept

/-- The (physical-dimensions, file-type, creative-concept) triple of a spec,
as normalised by the builder. -/
def specTriple (concept : String) (s : SpecDict) : String × String × String :=
  (keyDims s, fileTypeOf s, concept)

structure DeliveryDestination where
  platform_name : String
  spec_id : String
  format_name : String
  special_notes : String
  max_duration_seconds : Option Int := none
  dimensions : Option String := none
  aspect_ratio : Option String := none
  media_type : Option String := none
  file_size_limit_kb : Option Int := none
deriving DecidableEq, Repr

/-- The destination appended for the spec at index `idx`. -/
def mkDestination (idx : Nat) (spec : SpecDict) : DeliveryDestination :=
  { platform_name := platformNameOf spec
    spec_id := specIdOf idx spec
    format_name := if formatNameOf spec ≠ "" then formatNameOf spec else keyDims spec
    special_notes := if safeNotesOf spec ≠ "" then safeNotesOf spec else "Standard"
    max_duration_seconds := resolveDur spec
    dimensions := normDimensions spec
    aspect_ratio := some (aspectRatioOf spec)
    media_type := some (fileTypeOf spec)
    file_size_limit_kb := Briefing.truthyInt spec.file_size_limit_kb }

/-- `ProductionJob` (`app/schemas/production_matrix.py`).  The float-valued
metadata fields (`file_size_limit_mb`, `estimated_hours`, `estimated_cost`)
are omitted: the modelled code never sets them (always `None`). -/
structure ProductionJob where
  job_id : String
  creative_concept : String
  asset_type : String
  destinations : List DeliveryDestination
  technical_summary : String
  status : String := "Pending"
  source_type : Option String := none
  shoot_code : Option String := none
  version_tag : Option String := none
  owner : Option String := none
  due_date : Option String := none
  round_label : Option String := none
  asset_feed_row_ids : Option (List String) := none
  campaign_name : Option String := none
  single_minded_proposition : Option String := none
  production_notes : Option String := none
  max_duration_seconds : Option Int := none
  min_duration_seconds : Option Int := none
  file_format : Option String := none
  codec : Option String := none
  audio_spec : Option String := none
  frame_rate : Option String := none
  language : Option String := none
  requires_subtitles : Option Bool := none
  localization_notes : Option String := none
  legal_disclaimer_required : Option Bool := none
  talent_usage_rights : Option String := none
  music_licensing_status : Option String := none
  priority : Option String := none
deriving DecidableEq, Repr

/-- `FILE_FORMAT_MAP`. -/
def fileFormatMap (t : String) : Option String :=
  if t = "video" then some "MP4"
  else if t = "image" then some "JPG/PNG"
  else if t = "image_or_video" then some "MP4/JPG"
  else if t = "html5" then some "HTML5"
  else if t = "image_or_html5" then some "HTML5/JPG"
  else if t = "video_or_image" then some "MP4/JPG"
  else none

/-- `AUDIO_DEFAULTS.get(base_type)`: `"image"` and `"html5"` map to `None`
in the source, exactly like a missing key. -/
def audioDefaults (t : String) : Option String :=
  if t = "video" then
    some "Sound on recommended; ensure captions for accessibility"
  else none

/-- `file_type.lower().replace("_", " ").split()[0]`; the `"asset"` fallback
mirrors the source's `else` arm (the indexing itself cannot fail unless the
source raises). -/
def baseTypeOf (s : SpecDict) : String :=
  ((Briefing.splitOnChar
      (Briefing.pyReplaceChar (Briefing.toLowerS (fileTypeOf s)) '_' " ") ' ').filter
    (fun t => t ≠ "")).headD "asset"

/-- The technical summary assembled on first encounter of a group key. -/
def technicalSummaryOf (s : SpecDict) : String :=
  String.intercalate ", "
    ([keyDims s] ++
      (match resolveDur s with
       | some d => [toString d ++ "s"]
       | none => []) ++
      [Briefing.toUpperS (fileTypeOf s)])

/-- The `ProductionJob` created on first encounter of a group key, when `n`
jobs already exist. -/
def mkJob (concept : String) (campaign smp : Option String) (n : Nat)
    (spec : SpecDict) : ProductionJob :=
  let file_type := fileTypeOf spec
  let base_type := baseTypeOf spec
  { job_id := "JOB-" ++ toString (n + 1)
    creative_concept := concept
    asset_type := ((if aspectRatioOf spec ≠ "" then aspectRatioOf spec
                    else keyDims spec) ++ " " ++ file_type |> Briefing.trimS)
    technical_summary := technicalSummaryOf spec
    destinations := []
    campaign_name := campaign
    single_minded_proposition := smp
    file_format := some ((fileFormatMap (Briefing.toLowerS file_type)).getD
      (Briefing.toUpperS file_type))
    audio_spec := audioDefaults base_type
    requires_subtitles := some (base_type == "video")
    codec := if base_type = "video" then some "H.264" else none
    frame_rate := if base_type = "video" then some "30fps" else none
    round_label := some "R1"
    version_tag := some "v1"
    priority := some "Medium" }

/-- What the spec adds to its group's duration list (`if max_duration:`). -/
def durationContribution (s : SpecDict) : List Int :=
  match resolveDur s with
  | some d => [d]
  | none => []

/-- What the spec adds to its group's safe-zone note list (non-blank,
non-`"Standard"`, de-duplicated by exact match). -/
def safeNoteContribution (s : SpecDict) (existing : List String) : List String :=
  let safe_notes := safeNotesOf s
  if safe_notes ≠ "" ∧ Briefing.trimS safe_notes ≠ "" ∧ safe_notes ≠ "Standard" then
    let note := "• " ++ platformNameOf s ++ " (" ++ formatNameOf s ++ "): " ++
      safe_notes
    if existing.contains note then existing else existing ++ [note]
  else existing

/-- Per-group accumulator: the job under construction plus the group's
safe-zone and duration lists (the source keeps these in three dicts sharing
the same keys; they are fused into one record here). -/
structure GroupAcc where
  job : ProductionJob
  safe_zones : List String
  durations : List Int
deriving DecidableEq, Repr

abbrev Groups := List (String × GroupAcc)

/-- Everything the loop body does to the existing accumulator of the spec's
group. -/
def appendSpec (idx : Nat) (spec : SpecDict) (acc : GroupAcc) : GroupAcc :=
  { job := { acc.job with
      destinations := acc.job.destinations ++ [mkDestination idx spec] }
    safe_zones := safeNoteContribution spec acc.safe_zones
    durations := acc.durations ++ durationContribution spec }

/-- One iteration of the `for idx, spec in enumerate(selected_specs)` loop. -/
def stepSpec (concept : String) (campaign smp : Option String) (idx : Nat)
    (spec : SpecDict) (gs : Groups) : Groups :=
  let key := groupKey concept spec
  let gs1 :=
    if (Briefing.alookup gs key).isSome then gs
    else gs ++ [(key, ⟨mkJob concept campaign smp gs.length spec, [], []⟩)]
  Briefing.aupdate gs1 key (appendSpec idx spec)

/-- The whole loop. -/
def buildLoop (concept : String) (campaign smp : Option String) :
    Nat → List SpecDict → Groups → Groups
  | _, [], gs => gs
  | idx, spec :: rest, gs =>
    buildLoop concept campaign smp (idx + 1) rest
      (stepSpec concept campaign smp idx spec gs)

/-- The post-pass over one group: consolidate notes, set the strictest
duration, extend the technical summary. -/
def postProcess (acc : GroupAcc) : ProductionJob :=
  let job := acc.job
  let notes :=
    if acc.safe_zones ≠ ([] : List String) then
      "SAFE ZONE GUIDANCE:\n" ++ String.intercalate "\n" acc.safe_zones
    else
      "SAFE ZONE GUIDANCE:\n• Standard safe zones apply. Check platform specs before final delivery."
  let job := { job with production_notes := some notes }
  match Briefing.listMin acc.durations with
  | none => job
  | some m =>
    let job := { job with max_duration_seconds := some m }
    if m ≠ 0 then
      { job with technical_summary :=
          (Briefing.splitOnChar job.technical_summary ',').headD "" ++ ", max " ++
            toString m ++ "s" }
    else job

/-- `MatrixBuilder.group_specs_by_creative`. -/
def group_specs_by_creative (selected_specs : List SpecDict)
    (creative_concept : String) (campaign_name : Option String)
    (single_minded_proposition : Option String) : List ProductionJob :=
  (buildLoop creative_concept campaign_name single_minded_proposition
      0 selected_specs []).map (fun p => postProcess p.2)

end MatrixBuilder

namespace PlatformExport

/-! ## Platform Export (`app/services/platform_export.py`)

A module-content entry (`modules[role]`).  An absent key and a key stored
as Python `None` are conflated as `none`: both are falsy in every `or`
chain of the generators and both serialise to the empty CSV cell. -/

structure ModuleEntry where
  text : Option String := none
  asset_url : Option String := none
  color : Option String := none
  format : Option String := none
deriving DecidableEq, Repr

abbrev Modules := List (String × ModuleEntry)

/-- `modules.get(role, \x7b\x7d).get("text", "")`. -/
def modText (modules : Modules) (role : String) : String :=
  match Briefing.alookup modules role with
  | none => ""
  | some m => m.text.getD ""

/-- `modules.get(role, \x7b\x7d).get("asset_url", "")`. -/
def modAsset (modules : Modules) (role : String) : String :=
  match Briefing.alookup modules role with
  | none => ""
  | some m => m.asset_url.getD ""

/-- `modules.get(role, \x7b\x7d).get("color", default)`. -/
def modColor (modules : Modules) (role default : String) : String :=
  match Briefing.alookup modules role with
  | none => default
  | some m => m.color.getD default

/-- `modules.get(role, \x7b\x7d).get("format")`. -/
def modFormat (modules : Modules) (role : String) : Option String :=
  (Briefing.alookup modules role).bind (fun m => m.format)

/-- `ExportRow` (`app/schemas/modules.py`); `funnel_stage` is carried as
its enum string value. -/
structure ExportRow where
  row_id : String
  creative_id : String
  creative_name : String
  modules : Modules := []
  audience_id : Option String := none
  audience_name : Option String := none
  funnel_stage : Option String := none
  placement_id : Option String := none
  placement_name : Option String := none
  geo_targeting : Option String := none
  rules_applied : List String := []
  is_default : Bool := false
  dimensions : Option String := none
  format : Option String := none
  destination_url : Option String := none
  utm_params : Option String := none
  production_job_id : Option String := none
  concept_id : Option String := none
deriving DecidableEq, Repr

/-- `DecisionRule`, reduced to the fields the modelled generators consult;
the rule conditions and action are consumed only inside the JSON bodies,
which lie outside the modelled fragment. -/
structure DecisionRule where
  id : String
  name : String
  priority : Int := 100
  condition_logic : String := "AND"
  is_active : Bool := true
deriving DecidableEq, Repr

def FLASHTALKING_COLUMNS : List String :=
  ["Creative ID", "Creative Name", "Version", "Audience", "Placement",
   "Headline", "Body Copy", "CTA", "Image 1 URL", "Image 2 URL",
   "Video URL", "Logo URL", "Background Color", "Font Color",
   "Click URL", "Impression Tracker", "Click Tracker"]

def STORYTEQ_COLUMNS : List String :=
  ["template_id", "output_name", "variant", "audience",
   "headline", "body", "cta", "image_1", "image_2",
   "logo", "background", "font_color", "destination_url"]

def GOOGLE_STUDIO_COLUMNS : List String :=
  ["Creative Name", "Reporting Label", "Exit URL", "Audience ID",
   "Headline", "Description Line 1", "Description Line 2", "CTA Text",
   "Image Asset 1", "Image Asset 2", "Video Asset", "Logo Asset",
   "Primary Color", "Secondary Color"]

/-- A CSV export: `content` models the serialised CSV line structure, one
inner list of cell values per line, the header line first (this is exactly
what `csv.DictWriter` emits). -/
structure CsvExport where
  format : String
  content : List (List String)
  filename : String
  row_count : Nat
deriving DecidableEq, Repr

/-- `csv.DictWriter.writerow`: emit the dict's values in `columns` order
(missing keys become the empty cell, the writer's `restval`). -/
def writeDictRow (columns : List String) (csv_row : List (String × String)) :
    List String :=
  columns.map (fun c => (Briefing.alookup csv_row c).getD "")

/-- The `csv_row` dict of `generate_flashtalking_export`, in source order. -/
def flashtalkingCsvRow (row : ExportRow) : List (String × String) :=
  let modules := row.modules
  [("Creative ID", row.creative_id),
   ("Creative Name", row.creative_name),
   ("Version", row.row_id),
   ("Audience", (Briefing.orStr row.audience_name row.audience_id).getD ""),
   ("Placement", (Briefing.orStr row.placement_name row.placement_id).getD ""),
   ("Headline", Briefing.orS (modText modules "hook") (modText modules "value_prop")),
   ("Body Copy", Briefing.orS (modText modules "value_prop") (modText modules "proof_point")),
   ("CTA", modText modules "cta"),
   ("Image 1 URL", Briefing.orS (modAsset modules "product") (modAsset modules "background")),
   ("Image 2 URL", modAsset modules "proof_point"),
   ("Video URL", if modFormat modules "hook" = some "video" then modAsset modules "hook" else ""),
   ("Logo URL", modAsset modules "logo"),
   ("Background Color", modColor modules "background" "#FFFFFF"),
   ("Font Color", modColor modules "value_prop" "#000000"),
   ("Click URL", row.destination_url.getD ""),
   ("Impression Tracker", ""),
   ("Click Tracker", "")]

/-- `generate_flashtalking_export`. -/
def generate_flashtalking_export (rows : List ExportRow)
    (rules : List DecisionRule) (campaign_name : String) : CsvExport :=
  { format := "csv"
    content := FLASHTALKING_COLUMNS ::
      rows.map (fun row => writeDictRow FLASHTALKING_COLUMNS (flashtalkingCsvRow row))
    filename := campaign_name ++ "_flashtalking_feed.csv"
    row_count := rows.length }

/-- The `csv_row` dict of `generate_storyteq_export`, in source order. -/
def storyteqCsvRow (row : ExportRow) : List (String × String) :=
  let modules := row.modules
  [("template_id", row.creative_id),
   ("output_name", row.creative_name),
   ("variant", row.row_id),
   ("audience", (Briefing.orStr row.audience_name row.audience_id).getD "Default"),
   ("headline", modText modules "hook"),
   ("body", modText modules "value_prop"),
   ("cta", modText modules "cta"),
   ("image_1", modAsset modules "product"),
   ("image_2", modAsset modules "proof_point"),
   ("logo", modAsset modules "logo"),
   ("background", modColor modules "background" "#FFFFFF"),
   ("font_color", modColor modules "value_prop" "#000000"),
   ("destination_url", row.destination_url.getD "")]

/-- `generate_storyteq_export`. -/
def generate_storyteq_export (rows : List ExportRow)
    (rules : List DecisionRule) (campaign_name : String) : CsvExport :=
  { format := "csv"
    content := STORYTEQ_COLUMNS ::
      rows.map (fun row => writeDictRow STORYTEQ_COLUMNS (storyteqCsvRow row))
    filename := campaign_name ++ "_storyteq_feed.csv"
    row_count := rows.length }

/-- The `csv_row` dict of `generate_google_studio_export`, in source order. -/
def googleStudioCsvRow (row : ExportRow) : List (String × String) :=
  let modules := row.modules
  [("Creative Name", row.creative_name),
   ("Reporting Label",
     (Briefing.truthyStr row.audience_name).getD "Default" ++ "_" ++
       (Briefing.truthyStr row.placement_name).getD "All"),
   ("Exit URL", row.destination_url.getD ""),
   ("Audience ID", row.audience_id.getD ""),
   ("Headline", modText modules "hook"),
   ("Description Line 1", modText modules "value_prop"),
   ("Description Line 2", modText modules "proof_point"),
   ("CTA Text", modText modules "cta"),
   ("Image Asset 1", modAsset modules "product"),
   ("Image Asset 2", modAsset modules "background"),
   ("Video Asset", if modFormat modules "hook" = some "video" then modAsset modules "hook" else ""),
   ("Logo Asset", modAsset modules "logo"),
   ("Primary Color", modColor modules "background" "#FFFFFF"),
   ("Secondary Color", modColor modules "value_prop" "#000000")]

/-- `generate_google_studio_export`. -/
def generate_google_studio_export (rows : List ExportRow)
    (rules : List DecisionRule) (campaign_name : String) : CsvExport :=
  { format := "csv"
    content := GOOGLE_STUDIO_COLUMNS ::
      rows.map (fun row => writeDictRow GOOGLE_STUDIO_COLUMNS (googleStudioCsvRow row))
    filename := campaign_name ++ "_google_studio_feed.csv"
    row_count := rows.length }

/-- A JSON export.  The JSON body embeds `datetime.now()` and is not part
of the modelled fragment; the format tag, filename and row count are. -/
structure JsonExport where
  format : String
  filename : String
  row_count : Nat
deriving DecidableEq, Repr

/-- `generate_innovid_export` (format/filename/row-count fragment). -/
def generate_innovid_export (rows : List ExportRow)
    (rules : List DecisionRule) (campaign_name : String) : JsonExport :=
  { format := "json"
    filename := campaign_name ++ "_innovid_feed.json"
    row_count := rows.length }

/-- `generate_celtra_export` (format/filename/row-count fragment). -/
def generate_celtra_export (rows : List ExportRow)
    (rules : List DecisionRule) (campaign_name : String) : JsonExport :=
  { format := "json"
    filename := campaign_name ++ "_celtra_feed.json"
    row_count := rows.length }

inductive PlatformId where
  | flashtalking
  | innovid
  | clinch
  | celtra
  | storyteq
  | google_studio
  | sizmek
  | jivox
  | adform
deriving DecidableEq, Repr

/-- The string value of the `PlatformId` enum. -/
def PlatformId.value : PlatformId → String
  | .flashtalking => "flashtalking"
  | .innovid => "innovid"
  | .clinch => "clinch"
  | .celtra => "celtra"
  | .storyteq => "storyteq"
  | .google_studio => "google_studio"
  | .sizmek => "sizmek"
  | .jivox => "jivox"
  | .adform => "adform"

inductive FeedFormat where
  | csv
  | json
  | xml
  | api_only
deriving DecidableEq, Repr

/-- The file extension a feed format serialises to. -/
def FeedFormat.ext : FeedFormat → String
  | .csv => "csv"
  | .json => "json"
  | .xml => "xml"
  | .api_only => "api"

/-- First component of the `platform_formats` table in
`generate_platform_export` (identical to the dispatch used by the export
route). -/
def platformFormat : PlatformId → FeedFormat
  | .flashtalking => .csv
  | .innovid => .json
  | .celtra => .json
  | .storyteq => .csv
  | .google_studio => .csv
  | .clinch => .csv
  | .sizmek => .csv
  | .jivox => .json
  | .adform => .csv

inductive ExportResult where
  | csv (e : CsvExport)
  | json (e : JsonExport)
deriving DecidableEq, Repr

def ExportResult.filename : ExportResult → String
  | .csv e => e.filename
  | .json e => e.filename

def ExportResult.formatTag : ExportResult → String
  | .csv e => e.format
  | .json e => e.format

def ExportResult.row_count : ExportResult → Nat
  | .csv e => e.row_count
  | .json e => e.row_count

/-- Second component of the `platform_formats` table: the generator function
selected for each platform (`clinch`, `sizmek` and `adform` reuse the
Flashtalking generator, `jivox` reuses the Innovid generator). -/
def platformGenerator (p : PlatformId) (rows : List ExportRow)
    (rules : List DecisionRule) (campaign_name : String) : ExportResult :=
  match p with
  | .flashtalking => .csv (generate_flashtalking_export rows rules campaign_name)
  | .innovid => .json (generate_innovid_export rows rules campaign_name)
  | .celtra => .json (generate_celtra_export rows rules campaign_name)
  | .storyteq => .csv (generate_storyteq_export rows rules campaign_name)
  | .google_studio => .csv (generate_google_studio_export rows rules campaign_name)
  | .clinch => .csv (generate_flashtalking_export rows rules campaign_name)
  | .sizmek => .csv (generate_flashtalking_export rows rules campaign_name)
  | .jivox => .json (generate_innovid_export rows rules campaign_name)
  | .adform => .csv (generate_flashtalking_export rows rules campaign_name)

/-- The platform slug that actually appears in each platform's export
filename: the slug of the generator a platform's export is routed to. -/
def generatorSlug : PlatformId → String
  | .clinch => "flashtalking"
  | .sizmek => "flashtalking"
  | .adform => "flashtalking"
  | .jivox => "innovid"
  | p => p.value

/-- Metadata record returned by `generate_platform_export`
(`exported_at`, a wall-clock timestamp, is not modelled). -/
structure PlatformExportMeta where
  platform : PlatformId
  export_format : FeedFormat
  rows : List ExportRow
  decisioning_rules : List DecisionRule
  total_rows : Nat
  validation_passed : Bool
  validation_errors : List String
  warnings : List String
  campaign_name : Option String
deriving DecidableEq, Repr

/-- The inline validation errors of `generate_platform_export`. -/
def rowValidationErrors (rows : List ExportRow) : List String :=
  ((Briefing.indexed 0 rows).map (fun p =>
    (if p.2.creative_id = "" then
       ["Row " ++ toString (p.1 + 1) ++ ": Missing creative_id"] else []) ++
    (if p.2.creative_name = "" then
       ["Row " ++ toString (p.1 + 1) ++ ": Missing creative_name"] else []))).flatten

/-- The inline validation warnings of `generate_platform_export`. -/
def rowValidationWarnings (rows : List ExportRow) : List String :=
  ((Briefing.indexed 0 rows).map (fun p =>
    if p.2.modules = ([] : Modules) then
      ["Row " ++ toString (p.1 + 1) ++ ": No modules defined"] else [])).flatten

/-- `generate_platform_export`.  Every `PlatformId` member is a key of
`platform_formats`, so the `ValueError` branch is unreachable and the
embedding is total. -/
def generate_platform_export (platform : PlatformId) (rows : List ExportRow)
    (rules : List DecisionRule) (campaign_name : String) : PlatformExportMeta :=
  { platform := platform
    export_format := platformFormat platform
    rows := rows
    decisioning_rules := rules
    total_rows := rows.length
    validation_passed := rowValidationErrors rows = []
    validation_errors := rowValidationErrors rows
    warnings := rowValidationWarnings rows
    campaign_name := some campaign_name }

end PlatformExport

namespace SpecService

/-! ## Spec store (`app/services/spec_service.py`) -/

structure Spec where
  id : String
  platform : String
  placement : String
  width : Int
  height : Int
  orientation : String
  media_type : String
  notes : Option String := none
  max_duration_seconds : Option Int := none
  min_duration_seconds : Option Int := none
  file_size_limit_kb : Option Int := none
  aspect_ratio : Option String := none
  audio_guidance : Option String := none
deriving DecidableEq, Repr

structure SpecCreate where
  platform : String
  placement : String
  width : Int
  height : Int
  orientation : String
  media_type : String
  notes : Option String := none
  id : Option String := none
  max_duration_seconds : Option Int := none
  min_duration_seconds : Option Int := none
  file_size_limit_kb : Option Int := none
  aspect_ratio : Option String := none
  audio_guidance : Option String := none
deriving DecidableEq, Repr

/-- The candidate tried at step `suffix` of the collision loop:
`base` first, then `base_1`, `base_2`, ... -/
def candidateId (base : String) (suffix : Nat) : String :=
  if suffix = 0 then base else base ++ "_" ++ toString suffix

/-- The `while new_id in existing_ids` loop of `save_spec`.  `fuel` bounds
the iteration count; the Python loop terminates because the candidates are
pairwise distinct and the id set is finite, and `save_spec` passes more
fuel than the store has ids, which always suffices. -/
def firstFreeId (existing : List String) (base : String) :
    Nat → Nat → String
  | suffix, 0 => candidateId base suffix
  | suffix, fuel + 1 =>
    let cand := candidateId base suffix
    if existing.contains cand then firstFreeId existing base (suffix + 1) fuel
    else cand

/-- `save_spec`, as a pure function of the decoded custom-spec store: returns
the new spec and the store written back (the original list with the new
spec appended). -/
def save_spec (specs : List Spec) (spec_data : SpecCreate) : Spec × List Spec :=
  let new_id :=
    match Briefing.truthyStr spec_data.id with
    | some s => s
    | none =>
      let base :=
        Briefing.pyReplaceChar
          (Briefing.toUpperS (spec_data.platform ++ "_" ++ spec_data.placement)) ' ' "_"
      firstFreeId (specs.map (fun s => s.id)) base 0 (specs.length + 1)
  let new_spec : Spec :=
    { id := new_id
      platform := spec_data.platform
      placement := spec_data.placement
      width := spec_data.width
      height := spec_data.height
      orientation := spec_data.orientation
      media_type := spec_data.media_type
      notes := spec_data.notes
      max_duration_seconds := spec_data.max_duration_seconds
      min_duration_seconds := spec_data.min_duration_seconds
      file_size_limit_kb := spec_data.file_size_limit_kb
      aspect_ratio := spec_data.aspect_ratio
      audio_guidance := spec_data.audio_guidance }
  (new_spec, specs ++ [new_spec])

end SpecService

namespace MatrixGenerator

/-! ## Production plan generator (`app/services/matrix_generator.py`) with
the spec library (`app/services/spec_library.py`). -/

structure LibSpec where
  platform : String
  placement : String
  format_name : String
  dimensions : String
  aspect_ratio : String
  max_duration : Int
  file_type : String
  asset_type : String
  safe_zone : String
deriving DecidableEq, Repr

def META_STORY : LibSpec :=
  { platform := "Meta"
    placement := "Stories / Reels"
    format_name := "9:16 Vertical Video"
    dimensions := "1080x1920"
    aspect_ratio := "9:16"
    max_duration := 15
    file_type := "mp4"
    asset_type := "video"
    safe_zone := "Leave ~250px at top and bottom free of text and critical UI." }

def META_FEED : LibSpec :=
  { platform := "Meta"
    placement := "Feed / Carousel"
    format_name := "4:5 Vertical"
    dimensions := "1080x1350"
    aspect_ratio := "4:5"
    max_duration := 60
    file_type := "mp4/jpg"
    asset_type := "static"
    safe_zone := "No strict safe zone, but design for thumb-stopping legibility." }

def DISPLAY_MPU : LibSpec :=
  { platform := "Google Display"
    placement := "MPU"
    format_name := "Medium Rectangle"
    dimensions := "300x250"
    aspect_ratio := "1.2:1"
    max_duration := 0
    file_type := "html5/jpg"
    asset_type := "html5"
    safe_zone := "None; keep copy large and minimal given limited area." }

def DISPLAY_LEADERBOARD : LibSpec :=
  { platform := "Google Display"
    placement := "Leaderboard"
    format_name := "728x90 Banner"
    dimensions := "728x90"
    aspect_ratio := "8:1"
    max_duration := 0
    file_type := "html5/jpg"
    asset_type := "html5"
    safe_zone := "Very limited height; prioritize logo + single line CTA." }

def YOUTUBE_SHORTS : LibSpec :=
  { platform := "YouTube"
    placement := "Shorts"
    format_name := "9:16 Vertical Video"
    dimensions := "1080x1920"
    aspect_ratio := "9:16"
    max_duration := 60
    file_type := "mp4"
    asset_type := "video"
    safe_zone := "Avoid UI overlays at bottom and right-hand side." }

def LINKEDIN_FEED : LibSpec :=
  { platform := "LinkedIn"
    placement := "Feed"
    format_name := "1:1 / 4:5 Image or Video"
    dimensions := "1200x1200 or 1080x1350"
    aspect_ratio := "1:1 / 4:5"
    max_duration := 60
    file_type := "mp4/jpg"
    asset_type := "static"
    safe_zone := "B2B context; favor clarity, legible charts, and restrained motion." }

def SPEC_LIBRARY : List (String × LibSpec) :=
  [("META_STORY", META_STORY),
   ("META_FEED", META_FEED),
   ("DISPLAY_MPU", DISPLAY_MPU),
   ("DISPLAY_LEADERBOARD", DISPLAY_LEADERBOARD),
   ("YOUTUBE_SHORTS", YOUTUBE_SHORTS),
   ("LINKEDIN_FEED", LINKEDIN_FEED)]

/-- `get_spec_by_id`. -/
def get_spec_by_id (spec_id : String) : Option LibSpec :=
  Briefing.alookup SPEC_LIBRARY spec_id

/-- `StrategicMatrixRow`, reduced to the fields `generate_production_plan`
reads (the schema's remaining descriptive string fields are never consumed
by the modelled code). -/
structure StrategicMatrixRow where
  segment_id : String
  segment_name : String
  primary_message_pillar : String
  platform_environments : List String
deriving DecidableEq, Repr

/-- `CreativeConcept`, reduced to the fields `generate_production_plan`
reads. -/
structure CreativeConcept where
  id : String
  name : String
  visual_description : String
deriving DecidableEq, Repr

structure ProductionBatch where
  id : String
  campaign_id : String
  strategy_segment_id : String
  concept_id : String
  batch_name : String
deriving DecidableEq, Repr

structure ProductionAsset where
  id : String
  batch_id : String
  asset_name : String
  platform : String
  placement : String
  spec_dimensions : String
  spec_details : LibSpec
  status : String := "Todo"
  assignee : Option String := none
  asset_type : String := "static"
  visual_directive : String
  copy_headline : String
  source_asset_requirements : Option String := none
  adaptation_instruction : Option String := none
  file_url : Option String := none
deriving DecidableEq, Repr

/-- Python dict insertion `d[k] = v` on a store modelled as an ordered
association list. -/
def storePut {α : Type} (store : List (String × α)) (k : String) (v : α) :
    List (String × α) :=
  if (Briefing.alookup store k).isSome then Briefing.aupdate store k (fun _ => v)
  else store ++ [(k, v)]

/-- The batch built by `generate_production_plan` (its uuid4 id supplied as
`batchId`). -/
def mkBatch (campaign_id : String) (strategy : StrategicMatrixRow)
    (concept : CreativeConcept) (batch_name : Option String)
    (batchId : String) : ProductionBatch :=
  { id := batchId
    campaign_id := campaign_id
    strategy_segment_id := strategy.segment_id
    concept_id := concept.id
    batch_name :=
      match Briefing.truthyStr batch_name with
      | some b => b
      | none => strategy.segment_name ++ " – " ++ concept.name }

/-- The asset ticket built for one resolved environment.  The spec library
entries carry every key the source reads, so the dict-`get` defaults
(`env_id`, `""`, `"static"`) are never taken. -/
def mkAsset (strategy : StrategicMatrixRow) (concept : CreativeConcept)
    (source_asset_requirements adaptation_instruction : Option String)
    (batchId assetId : String) (env_id : String) (spec : LibSpec) :
    ProductionAsset :=
  let platform := spec.platform
  let placement := spec.placement
  let safe_segment :=
    Briefing.orS (Briefing.pyReplaceChar strategy.segment_name ' ' "") strategy.segment_id
  let safe_platform := Briefing.pyReplaceChar platform ' ' ""
  let safe_place := Briefing.pyReplaceChar placement ' ' ""
  { id := assetId
    batch_id := batchId
    asset_name := safe_segment ++ "_" ++ safe_platform ++ "_" ++ safe_place
    platform := platform
    placement := placement
    spec_dimensions := spec.dimensions
    spec_details := spec
    asset_type := spec.asset_type
    visual_directive := concept.visual_description
    copy_headline := strategy.primary_message_pillar
    source_asset_requirements := source_asset_requirements
    adaptation_instruction := adaptation_instruction }

/-- The `for env_id in env_ids` loop: `k` counts the assets created so far
(each created asset draws the next uuid from `assetIds`). -/
def planLoop (strategy : StrategicMatrixRow) (concept : CreativeConcept)
    (sar ai : Option String) (batchId : String) (assetIds : Nat → String) :
    List String → Nat → List (String × ProductionAsset) →
    List ProductionAsset × List (String × ProductionAsset)
  | [], _, store => ([], store)
  | env_id :: rest, k, store =>
    match get_spec_by_id env_id with
    | none => planLoop strategy concept sar ai batchId assetIds rest k store
    | some spec =>
      let asset := mkAsset strategy concept sar ai batchId (assetIds k) env_id spec
      let r := planLoop strategy concept sar ai batchId assetIds rest (k + 1)
        (storePut store asset.id asset)
      (asset :: r.1, r.2)

/-- `generate_production_plan`, with the uuid4 draws supplied explicitly
(`batchId` for the batch, `assetIds k` for the `k`-th created asset) and
the module-level `_BATCHES` / `_ASSETS` stores passed and returned. -/
def generate_production_plan (campaign_id : String)
    (strategy : StrategicMatrixRow) (concept : CreativeConcept)
    (batch_name sar ai : Option String) (batchId : String)
    (assetIds : Nat → String) (batches : List (String × ProductionBatch))
    (assetStore : List (String × ProductionAsset)) :
    (ProductionBatch × List ProductionAsset) ×
      List (String × ProductionBatch) × List (String × ProductionAsset) :=
  let env_ids := strategy.platform_environments
  if env_ids = [] then
    let batch := mkBatch campaign_id strategy concept batch_name batchId
    ((batch, []), storePut batches batch.id batch, assetStore)
  else
    let batch := mkBatch campaign_id strategy concept batch_name batchId
    let r := planLoop strategy concept sar ai batchId assetIds env_ids 0 assetStore
    ((batch, r.1), storePut batches batch.id batch, r.2)

/-- The environment ids that resolve in the spec library, paired with their
specs, in list order. -/
def resolvedEnvs (env_ids : List String) : List (String × LibSpec) :=
  env_ids.filterMap (fun e => (get_spec_by_id e).map (fun s => (e, s)))

end MatrixGenerator

/-! ## Proof-side definitions and concrete sample inputs -/

namespace MatrixBuilder

/-- Destination list of the group stored under key `k`, if any. -/
def destsAt (gs : Groups) (k : String) : Option (List DeliveryDestination) :=
  (Briefing.alookup gs k).map (fun a => a.job.destinations)

/-- The destinations contributed to group key `k` by the indexed specs of
`ps`: one destination per spec whose group key is `k`, in input order. -/
def classDests (concept : String) (k : String) :
    List (Nat × SpecDict) → List DeliveryDestination
  | [] => []
  | p :: rest =>
    if groupKey concept p.2 = k then
      mkDestination p.1 p.2 :: classDests concept k rest
    else classDests concept k rest

/-- Invariant tying a group accumulator's duration list to its
destinations: the collected durations are exactly the resolved durations
of the destinations appended so far, and the job's own
`max_duration_seconds` is still unset. -/
def GoodAcc (acc : GroupAcc) : Prop :=
  acc.job.max_duration_seconds = none ∧
  acc.durations = acc.job.destinations.filterMap (fun d => d.max_duration_seconds)

/-- Two sample specs sharing one physical asset (the spec's end-to-end
scenario). -/
def demoSpecs : List SpecDict :=
  [{ dimensions := some "1080x1920"
     file_type := some "mp4"
     max_duration := some 15
     platform := some "Meta"
     notes := some "Avoid bottom 250px" },
   { dimensions := some "1080x1920"
     file_type := some "mp4"
     max_duration := some 60
     platform := some "TikTok" }]

/-- A default job value (used only as a `headD` fallback). -/
def emptyJob : ProductionJob :=
  { job_id := ""
    creative_concept := ""
    asset_type := ""
    destinations := []
    technical_summary := "" }

/-- The first job produced from `demoSpecs`. -/
def demoJob : ProductionJob :=
  (group_specs_by_creative demoSpecs "Summer Sale" none none).headD emptyJob

end MatrixBuilder

namespace FeedValidator

/-- A Flashtalking row whose headline length is exactly the platform's
`max_headline_length` of 40. -/
def demoFeedRow40 : Row :=
  [("creative_id", "X"),
   ("creative_name", "N"),
   ("headline", "AAAAAAAAAAAAAAAAAAAAAAAAAAAAAAAAAAAAAAAA"),
   ("click_url", "https://a.b")]

end FeedValidator

namespace PlatformExport

/-- A sample export row. -/
def demoExportRow : ExportRow :=
  { row_id := "R1"
    creative_id := "CR1"
    creative_name := "Hero"
    modules := [("hook", { text := some "Big hook" }),
                ("cta", { text := some "Shop now" })]
    destination_url := some "https://example.com" }

end PlatformExport

namespace SpecService

/-- A custom-spec payload without an id (platform `Meta`,
placement `Story Ad`). -/
def demoSpecCreate : SpecCreate :=
  { platform := "Meta"
    placement := "Story Ad"
    width := 1080
    height := 1920
    orientation := "9:16"
    media_type := "video" }

/-- The same payload with an explicit id. -/
def dupSpecCreate : SpecCreate :=
  { demoSpecCreate with id := some "DUP" }

end SpecService

namespace MatrixGenerator

/-- A sample strategy row: one resolvable environment, one unknown id,
then another resolvable environment. -/
def demoStrategy : StrategicMatrixRow :=
  { segment_id := "SEG-1"
    segment_name := "High Value"
    primary_message_pillar := "Reliability"
    platform_environments := ["META_STORY", "BOGUS_ENV", "DISPLAY_MPU"] }

def demoConcept : CreativeConcept :=
  { id := "CON-1"
    name := "Summer Sale"
    visual_description := "High energy product shots" }

end MatrixGenerator

/-! ## Generic lemmas about the helper functions -/

namespace Briefing

theorem alookup_append {α : Type} (l1 l2 : List (String × α)) (k : String) :
    alookup (l1 ++ l2) k =
      match alookup l1 k with
      | some v => some v
      | none => alookup l2 k := by
  induction l1 with
  | nil => simp [alookup]
  | cons p rest ih =>
    obtain ⟨a, b⟩ := p
    by_cases hak : a = k <;> simp [alookup, hak, ih]

theorem alookup_aupdate {α : Type} (l : List (String × α)) (key k : String)
    (f : α → α) :
    alookup (aupdate l key f) k =
      if k = key then (alookup l k).map f else alookup l k := by
  induction l with
  | nil => simp [alookup, aupdate]
  | cons p rest ih =>
    obtain ⟨a, b⟩ := p
    have hhead : (if a = key then (a, f b) else (a, b)) =
        (a, if a = key then f b else b) := by
      split <;> rfl
    simp only [aupdate, List.map_cons] at *
    rw [hhead]
    show (if a = k then some (if a = key then f b else b)
      else alookup (List.map (fun p => if p.1 = key then (p.1, f p.2) else p) rest) k) = _
    rw [ih]
    show _ = if k = key then (if a = k then some b else alookup rest k).map f
      else (if a = k then some b else alookup rest k)
    split_ifs <;> simp_all

theorem aupdate_keys {α : Type} (l : List (String × α)) (key : String)
    (f : α → α) :
    (aupdate l key f).map Prod.fst = l.map Prod.fst := by
  induction l with
  | nil => rfl
  | cons p rest ih =>
    obtain ⟨a, b⟩ := p
    by_cases hak : a = key <;> simp [aupdate, hak] <;>
      simpa [aupdate] using ih

theorem alookup_isSome_iff {α : Type} (l : List (String × α)) (k : String) :
    (alookup l k).isSome = true ↔ k ∈ l.map Prod.fst := by
  induction l with
  | nil => simp [alookup]
  | cons p rest ih =>
    obtain ⟨a, b⟩ := p
    by_cases hak : a = k <;> simp [alookup, hak, ih]
    exact fun h => (hak h.symm).elim

theorem alookup_mem {α : Type} {l : List (String × α)} {k : String} {v : α}
    (h : alookup l k = some v) : (k, v) ∈ l := by
  induction l with
  | nil => simp [alookup] at h
  | cons p rest ih =>
    obtain ⟨a, b⟩ := p
    by_cases hak : a = k
    · rw [alookup, if_pos hak] at h
      subst hak
      cases h
      exact List.mem_cons_self _ _
    · rw [alookup, if_neg hak] at h
      exact List.mem_cons_of_mem _ (ih h)

theorem mem_alookup_of_nodup {α : Type} {l : List (String × α)}
    (hnd : (l.map Prod.fst).Nodup) {e : String × α} (he : e ∈ l) :
    alookup l e.1 = some e.2 := by
  induction l with
  | nil => simp at he
  | cons p rest ih =>
    simp only [List.map_cons, List.nodup_cons] at hnd
    rcases List.mem_cons.mp he with h1 | h1
    · subst h1
      rw [alookup, if_pos rfl]
    · have hne : p.1 ≠ e.1 := by
        intro hc
        exact hnd.1 (hc ▸ List.mem_map_of_mem Prod.fst h1)
      rw [alookup, if_neg hne]
      exact ih hnd.2 h1

theorem mem_indexed_of_get {α : Type} :
    ∀ (l : List α) (i0 i : Nat) (h : i < l.length),
      (i0 + i, l.get ⟨i, h⟩) ∈ indexed i0 l := by
  intro l
  induction l with
  | nil => intro i0 i h; simp at h
  | cons x xs ih =>
    intro i0 i h
    cases i with
    | zero => simp [indexed]
    | succ n =>
      have h2 := ih (i0 + 1) n (Nat.lt_of_succ_lt_succ h)
      have harith : i0 + 1 + n = i0 + (n + 1) := by omega
      rw [harith] at h2
      exact List.mem_cons_of_mem _ h2
end Briefing

/-! ## Claims about the Feed Validator -/

namespace FeedValidator

/-- C4: for every row list and every platform identifier not in the
constraints table, `validate_feed` returns `is_valid = false`, `errors = 1`
and exactly one issue, whose `field` is `"platform"`; no row is validated
against any per-platform rule (the whole result, except `total_rows`, is
independent of the rows). -/
theorem validate_feed_unknown_platform (rows : List Row) (platform : String)
    (h : platformConstraints platform = none) :
    validate_feed rows platform =
      { is_valid := false
        total_rows := rows.length
        errors := 1
        warnings := 0
        issues := [{ row_id := ""
                     field := "platform"
                     severity := .error
                     message := "Unknown platform: " ++ platform
                     suggestion := some ("Use one of: " ++
                       String.intercalate ", " platformNames) }]
        platform := platform
        summary := "Unknown platform: " ++ platform } := by
  unfold validate_feed
  rw [h]

/-- Witness for C4 at the unknown platform `"tiktok"` and a non-empty row
list. -/
theorem validate_feed_unknown_platform_witness :
    validate_feed [demoFeedRow40] "tiktok" =
      { is_valid := false
        total_rows := 1
        errors := 1
        warnings := 0
        issues := [{ row_id := ""
                     field := "platform"
                     severity := .error
                     message := "Unknown platform: tiktok"
                     suggestion := some ("Use one of: " ++
                       String.intercalate ", " platformNames) }]
        platform := "tiktok"
        summary := "Unknown platform: tiktok" } :=
  validate_feed_unknown_platform [demoFeedRow40] "tiktok" (by decide)

end FeedValidator

/-! ## Claims about the Platform Export generators -/

namespace PlatformExport

/-- C5: for every row list and every CSV-format generator (Flashtalking,
Storyteq, Google Studio), the serialised content has exactly `N + 1` lines:
the header line carrying the platform's fixed column schema, and one line
per export row with a cell for every declared column (possibly empty). -/
theorem csv_export_shape (rows : List ExportRow) (rules : List DecisionRule)
    (campaign_name : String) :
    ((generate_flashtalking_export rows rules campaign_name).content.length = rows.length + 1 ∧
      (generate_flashtalking_export rows rules campaign_name).content.head? = some FLASHTALKING_COLUMNS ∧
      ∀ line ∈ (generate_flashtalking_export rows rules campaign_name).content,
        line.length = FLASHTALKING_COLUMNS.length) ∧
    ((generate_storyteq_export rows rules campaign_name).content.length = rows.length + 1 ∧
      (generate_storyteq_export rows rules campaign_name).content.head? = some STORYTEQ_COLUMNS ∧
      ∀ line ∈ (generate_storyteq_export rows rules campaign_name).content,
        line.length = STORYTEQ_COLUMNS.length) ∧
    ((generate_google_studio_export rows rules campaign_name).content.length = rows.length + 1 ∧
      (generate_google_studio_export rows rules campaign_name).content.head? = some GOOGLE_STUDIO_COLUMNS ∧
      ∀ line ∈ (generate_google_studio_export rows rules campaign_name).content,
        line.length = GOOGLE_STUDIO_COLUMNS.length) := by
  refine ⟨⟨?_, ?_, ?_⟩, ⟨?_, ?_, ?_⟩, ⟨?_, ?_, ?_⟩⟩ <;>
    simp only [generate_flashtalking_export, generate_storyteq_export,
      generate_google_studio_export, List.length_cons, List.length_map,
      List.head?_cons] <;>
    try rfl
  all_goals
    intro line hline
    rcases List.mem_cons.mp hline with h | h
    · subst h; rfl
    · obtain ⟨row, _, rfl⟩ := List.mem_map.mp h
      simp [writeDictRow]

/-- Witness for C5: the data line produced for the sample row has a cell
for every Flashtalking column. -/
theorem csv_export_shape_witness :
    (writeDictRow FLASHTALKING_COLUMNS (flashtalkingCsvRow demoExportRow)).length =
      FLASHTALKING_COLUMNS.length :=
  (csv_export_shape [demoExportRow] [] "camp").1.2.2
    (writeDictRow FLASHTALKING_COLUMNS (flashtalkingCsvRow demoExportRow))
    (by decide)

/-- C6 counterexample: exporting for the `clinch` platform yields the
filename `camp_flashtalking_feed.csv`, not
`camp_clinch_feed.csv` as the claim requires for platforms that reuse
another platform's generator. -/
theorem export_filename_counterexample :
    (platformGenerator PlatformId.clinch [] [] "camp").filename ≠
      "camp" ++ "_" ++ (PlatformId.clinch).value ++ "_feed." ++
        (platformFormat PlatformId.clinch).ext := by
  decide

/-- C6 (amended): the export filename is
`{campaign_name}_{slug}_feed.{ext}` where `slug` is the slug of the
platform whose generator function serves the request — the platform's own
identifier except for `clinch`/`sizmek`/`adform` (which reuse the
Flashtalking generator and its filename) and `jivox` (which reuses
Innovid's) — and `ext` matches the platform's serialisation format. -/
theorem export_filename_generator_slug (p : PlatformId) (rows : List ExportRow)
    (rules : List DecisionRule) (campaign_name : String) :
    (platformGenerator p rows rules campaign_name).filename =
      campaign_name ++ "_" ++ generatorSlug p ++ "_feed." ++ (platformFormat p).ext ∧
    (platformGenerator p rows rules campaign_name).formatTag = (platformFormat p).ext := by
  cases p <;>
    refine ⟨?_, rfl⟩ <;>
    simp only [platformGenerator, generate_flashtalking_export,
      generate_innovid_export, generate_celtra_export, generate_storyteq_export,
      generate_google_studio_export, ExportResult.filename, generatorSlug,
      platformFormat, FeedFormat.ext, PlatformId.value, String.append_assoc] <;>
    exact congrArg (fun x => campaign_name ++ x) (by decide)

end PlatformExport

/-! ## Claims about the custom-spec store -/

namespace SpecService

/-- C7: saving a custom spec with no supplied id, platform `Meta` and
placement `Story Ad` into an empty store stores and returns a spec with id
`META_STORY_AD`; a second identical save against the resulting store yields
`META_STORY_AD_1`. -/
theorem save_spec_auto_id :
    (save_spec [] demoSpecCreate).1.id = "META_STORY_AD" ∧
    (save_spec [] demoSpecCreate).2 = [(save_spec [] demoSpecCreate).1] ∧
    (save_spec (save_spec [] demoSpecCreate).2 demoSpecCreate).1.id = "META_STORY_AD_1" ∧
    (save_spec (save_spec [] demoSpecCreate).2 demoSpecCreate).2 =
      [(save_spec [] demoSpecCreate).1,
       (save_spec (save_spec [] demoSpecCreate).2 demoSpecCreate).1] := by
  decide

/-- C10: a non-empty supplied id is stored verbatim with no collision
check — the store simply grows by the new spec — so saving the same
explicit id twice leaves two entries with the same id. -/
theorem save_spec_explicit_id :
    (∀ (specs : List Spec) (spec_data : SpecCreate) (s : String),
      spec_data.id = some s → s ≠ "" →
      (save_spec specs spec_data).1.id = s ∧
      (save_spec specs spec_data).2 = specs ++ [(save_spec specs spec_data).1]) ∧
    (save_spec (save_spec [] dupSpecCreate).2 dupSpecCreate).2.map (fun s => s.id) =
      ["DUP", "DUP"] := by
  constructor
  · intro specs spec_data s hid hne
    unfold save_spec
    rw [hid]
    simp [Briefing.truthyStr, hne]
  · decide

/-- Witness for C10 at the concrete payload with id `DUP`. -/
theorem save_spec_explicit_id_witness :
    (save_spec [] dupSpecCreate).1.id = "DUP" ∧
    (save_spec [] dupSpecCreate).2 = [] ++ [(save_spec [] dupSpecCreate).1] :=
  save_spec_explicit_id.1 [] dupSpecCreate "DUP" rfl (by decide)

end SpecService

/-! ## Claims about the Matrix Builder's duration handling -/

namespace MatrixBuilder

/-- C9: a spec whose `max_duration` and `max_duration_seconds` are both 0
or absent yields a destination with `max_duration_seconds = none` and
contributes nothing to its group's duration list (hence nothing to the
job's minimum): 0 behaves exactly like an absent duration. -/
theorem zero_duration_is_no_duration (spec : SpecDict) (idx : Nat)
    (h1 : spec.max_duration = none ∨ spec.max_duration = some 0)
    (h2 : spec.max_duration_seconds = none ∨ spec.max_duration_seconds = some 0) :
    (mkDestination idx spec).max_duration_seconds = none ∧
    durationContribution spec = [] := by
  have hres : resolveDur spec = none := by
    unfold resolveDur Briefing.truthyInt
    rcases h1 with h1 | h1 <;> rcases h2 with h2 | h2 <;> simp [h1, h2]
  exact ⟨hres, by simp [durationContribution, hres]⟩

/-- Witness for C9 at a spec carrying `max_duration = 0`. -/
theorem zero_duration_is_no_duration_witness :
    (mkDestination 0 { max_duration := some 0 }).max_duration_seconds = none ∧
    durationContribution { max_duration := some 0 } = [] :=
  zero_duration_is_no_duration { max_duration := some 0 } 0 (Or.inr rfl) (Or.inl rfl)

end MatrixBuilder

namespace MatrixBuilder

theorem goodAcc_append (idx : Nat) (spec : SpecDict) (acc : GroupAcc)
    (h : GoodAcc acc) : GoodAcc (appendSpec idx spec acc) := by
  obtain ⟨h1, h2⟩ := h
  constructor
  · simpa [appendSpec] using h1
  · simp only [appendSpec, h2, List.filterMap_append]
    cases hr : resolveDur spec <;>
      simp [durationContribution, mkDestination, hr]

theorem goodAcc_new (c : String) (cm smp : Option String) (n : Nat)
    (spec : SpecDict) :
    GoodAcc ⟨mkJob c cm smp n spec, [], []⟩ := by
  constructor <;> simp [mkJob]

theorem stepSpec_good (c : String) (cm smp : Option String) (idx : Nat)
    (spec : SpecDict) (gs : Groups) (h : ∀ e ∈ gs, GoodAcc e.2) :
    ∀ e ∈ stepSpec c cm smp idx spec gs, GoodAcc e.2 := by
  intro e he
  unfold stepSpec at he
  obtain ⟨q, hq, rfl⟩ := List.mem_map.mp he
  have hq2 : GoodAcc q.2 := by
    by_cases hsome : (Briefing.alookup gs (groupKey c spec)).isSome = true
    · rw [if_pos hsome] at hq
      exact h q hq
    · rw [if_neg hsome] at hq
      rcases List.mem_append.mp hq with h1 | h1
      · exact h q h1
      · rcases List.mem_singleton.mp h1 with rfl
        exact goodAcc_new c cm smp gs.length spec
  split
  · exact goodAcc_append idx spec q.2 hq2
  · exact hq2

theorem buildLoop_good (c : String) (cm smp : Option String) :
    ∀ (specs : List SpecDict) (idx : Nat) (gs : Groups),
      (∀ e ∈ gs, GoodAcc e.2) →
      ∀ e ∈ buildLoop c cm smp idx specs gs, GoodAcc e.2 := by
  intro specs
  induction specs with
  | nil => intro idx gs h; exact h
  | cons spec rest ih =>
    intro idx gs h
    exact ih (idx + 1) _ (stepSpec_good c cm smp idx spec gs h)

theorem postProcess_destinations (acc : GroupAcc) :
    (postProcess acc).destinations = acc.job.destinations := by
  unfold postProcess
  rcases h : Briefing.listMin acc.durations with _ | m <;> simp [h]
  split <;> rfl

theorem postProcess_max (acc : GroupAcc) (h : GoodAcc acc) :
    (postProcess acc).max_duration_seconds =
      Briefing.listMin ((postProcess acc).destinations.filterMap
        (fun d => d.max_duration_seconds)) := by
  rw [postProcess_destinations, ← h.2]
  unfold postProcess
  rcases hm : Briefing.listMin acc.durations with _ | m <;> simp [hm]
  · exact h.1
  · split <;> rfl

/-- C2: every job returned by `group_specs_by_creative` carries as
`max_duration_seconds` the minimum of the resolved numeric durations of its
destinations, and `none` when no destination in its group exposes a
duration. -/
theorem job_min_duration (specs : List SpecDict) (concept : String)
    (campaign smp : Option String) :
    ∀ job ∈ group_specs_by_creative specs concept campaign smp,
      job.max_duration_seconds =
        Briefing.listMin (job.destinations.filterMap
          (fun d => d.max_duration_seconds)) := by
  intro job hjob
  unfold group_specs_by_creative at hjob
  obtain ⟨e, he, rfl⟩ := List.mem_map.mp hjob
  exact postProcess_max e.2 (buildLoop_good concept campaign smp specs 0 [] (by simp) e he)

/-- Witness for C2 at the sample job built from `demoSpecs`. -/
theorem job_min_duration_witness :
    demoJob.max_duration_seconds =
      Briefing.listMin (demoJob.destinations.filterMap
        (fun d => d.max_duration_seconds)) :=
  job_min_duration demoSpecs "Summer Sale" none none demoJob (by decide)

end MatrixBuilder

namespace MatrixBuilder

theorem destsAt_step (c : String) (cm smp : Option String) (idx : Nat)
    (spec : SpecDict) (gs : Groups) (k : String) :
    destsAt (stepSpec c cm smp idx spec gs) k =
      if groupKey c spec = k then
        some ((destsAt gs k).getD [] ++ [mkDestination idx spec])
      else destsAt gs k := by
  unfold stepSpec destsAt
  rw [Briefing.alookup_aupdate]
  by_cases hkk : groupKey c spec = k
  · rw [if_pos hkk, if_pos hkk.symm]
    by_cases hsome : (Briefing.alookup gs (groupKey c spec)).isSome = true
    · rw [if_pos hsome]
      obtain ⟨a, ha⟩ := Option.isSome_iff_exists.mp hsome
      rw [← hkk, ha]
      simp [appendSpec]
    · rw [if_neg hsome]
      rw [Briefing.alookup_append]
      have hnone : Briefing.alookup gs k = none := by
        rw [← hkk]
        exact Option.not_isSome_iff_eq_none.mp hsome
      rw [hnone]
      simp [Briefing.alookup, hkk, appendSpec, mkJob]
  · rw [if_neg hkk, if_neg (fun h => hkk h.symm)]
    by_cases hsome : (Briefing.alookup gs (groupKey c spec)).isSome = true
    · rw [if_pos hsome]
    · rw [if_neg hsome]
      rw [Briefing.alookup_append]
      rcases h : Briefing.alookup gs k with _ | a
      · simp [Briefing.alookup, hkk]
      · simp

theorem stepSpec_nodup (c : String) (cm smp : Option String) (idx : Nat)
    (spec : SpecDict) (gs : Groups) (h : (gs.map Prod.fst).Nodup) :
    ((stepSpec c cm smp idx spec gs).map Prod.fst).Nodup := by
  unfold stepSpec
  rw [Briefing.aupdate_keys]
  by_cases hsome : (Briefing.alookup gs (groupKey c spec)).isSome = true
  · rw [if_pos hsome]; exact h
  · rw [if_neg hsome, List.map_append]
    refine List.nodup_append.mpr ⟨h, List.nodup_singleton _, ?_⟩
    intro a ha hb
    rcases List.mem_singleton.mp hb with rfl
    exact hsome ((Briefing.alookup_isSome_iff gs _).mpr ha)

theorem buildLoop_nodup (c : String) (cm smp : Option String) :
    ∀ (specs : List SpecDict) (idx : Nat) (gs : Groups),
      (gs.map Prod.fst).Nodup →
      ((buildLoop c cm smp idx specs gs).map Prod.fst).Nodup := by
  intro specs
  induction specs with
  | nil => intro idx gs h; exact h
  | cons spec rest ih =>
    intro idx gs h
    exact ih (idx + 1) _ (stepSpec_nodup c cm smp idx spec gs h)

theorem destsAt_buildLoop (c : String) (cm smp : Option String) :
    ∀ (specs : List SpecDict) (idx : Nat) (gs : Groups) (k : String),
      destsAt (buildLoop c cm smp idx specs gs) k =
        match destsAt gs k with
        | some ds => some (ds ++ classDests c k (Briefing.indexed idx specs))
        | none =>
          if k ∈ specs.map (groupKey c) then
            some (classDests c k (Briefing.indexed idx specs))
          else none := by
  intro specs
  induction specs with
  | nil =>
    intro idx gs k
    rcases h : destsAt gs k with _ | ds <;>
      simp [buildLoop, Briefing.indexed, classDests, h]
  | cons spec rest ih =>
    intro idx gs k
    show destsAt (buildLoop c cm smp (idx + 1) rest
      (stepSpec c cm smp idx spec gs)) k = _
    rw [ih, destsAt_step]
    by_cases hkk : groupKey c spec = k
    · rw [if_pos hkk]
      rcases h : destsAt gs k with _ | ds <;>
        simp [Briefing.indexed, classDests, hkk, h, List.mem_cons]
    · rw [if_neg hkk]
      have hkk2 : ¬(k = groupKey c spec) := fun hc => hkk hc.symm
      rcases h : destsAt gs k with _ | ds <;>
        simp [Briefing.indexed, classDests, hkk, hkk2, h, List.mem_cons]

end MatrixBuilder

namespace MatrixBuilder

theorem mem_classDests {concept k : String} {d : DeliveryDestination} :
    ∀ {ps : List (Nat × SpecDict)},
      d ∈ classDests concept k ps ↔
        ∃ i s, (i, s) ∈ ps ∧ groupKey concept s = k ∧ mkDestination i s = d := by
  intro ps
  induction ps with
  | nil => simp [classDests]
  | cons p rest ih =>
    obtain ⟨pi, ps2⟩ := p
    by_cases h : groupKey concept ps2 = k
    · rw [show classDests concept k ((pi, ps2) :: rest) =
          mkDestination pi ps2 :: classDests concept k rest from by
        simp [classDests, h]]
      constructor
      · intro hd
        rcases List.mem_cons.mp hd with rfl | hd2
        · exact ⟨pi, ps2, List.mem_cons_self _ _, h, rfl⟩
        · obtain ⟨i, s, hmem, hk2, hd3⟩ := ih.mp hd2
          exact ⟨i, s, List.mem_cons_of_mem _ hmem, hk2, hd3⟩
      · rintro ⟨i, s, hmem, hk2, hd3⟩
        rcases List.mem_cons.mp hmem with heq | hmem2
        · cases heq
          exact hd3 ▸ List.mem_cons_self _ _
        · exact List.mem_cons_of_mem _ (ih.mpr ⟨i, s, hmem2, hk2, hd3⟩)
    · rw [show classDests concept k ((pi, ps2) :: rest) =
          classDests concept k rest from by simp [classDests, h]]
      rw [ih]
      constructor
      · rintro ⟨i, s, hmem, hk2, hd3⟩
        exact ⟨i, s, List.mem_cons_of_mem _ hmem, hk2, hd3⟩
      · rintro ⟨i, s, hmem, hk2, hd3⟩
        rcases List.mem_cons.mp hmem with heq | hmem2
        · cases heq
          exact absurd hk2 h
        · exact ⟨i, s, hmem2, hk2, hd3⟩

theorem groupKey_eq_of_mkDestination_eq (c : String) {i j : Nat}
    {s t : SpecDict} (h : mkDestination i s = mkDestination j t) :
    groupKey c s = groupKey c t := by
  have hdim : normDimensions s = normDimensions t :=
    congrArg DeliveryDestination.dimensions h
  have hft : (some (fileTypeOf s) : Option String) = some (fileTypeOf t) :=
    congrArg DeliveryDestination.media_type h
  unfold groupKey keyDims
  rw [hdim, Option.some.inj hft]

theorem groupKey_eq_of_triple_eq {c : String} {s t : SpecDict}
    (h : specTriple c s = specTriple c t) : groupKey c s = groupKey c t := by
  have h1 : keyDims s = keyDims t := congrArg (fun x => x.1) h
  have h2 : fileTypeOf s = fileTypeOf t := congrArg (fun x => x.2.1) h
  unfold groupKey
  rw [h1, h2]

theorem job_class (specs : List SpecDict) (concept : String)
    (campaign smp : Option String) :
    ∀ job ∈ group_specs_by_creative specs concept campaign smp,
      ∃ k a,
        Briefing.alookup (buildLoop concept campaign smp 0 specs []) k = some a ∧
        job = postProcess a ∧
        job.destinations = classDests concept k (Briefing.indexed 0 specs) := by
  intro job hjob
  unfold group_specs_by_creative at hjob
  obtain ⟨e, he, rfl⟩ := List.mem_map.mp hjob
  have hnd : ((buildLoop concept campaign smp 0 specs []).map Prod.fst).Nodup :=
    buildLoop_nodup concept campaign smp specs 0 [] (by simp)
  have hla : Briefing.alookup (buildLoop concept campaign smp 0 specs []) e.1 =
      some e.2 := Briefing.mem_alookup_of_nodup hnd he
  refine ⟨e.1, e.2, hla, rfl, ?_⟩
  have hd := destsAt_buildLoop concept campaign smp specs 0 [] e.1
  rw [show destsAt ([] : Groups) e.1 = none from rfl] at hd
  unfold destsAt at hd
  rw [hla] at hd
  rw [postProcess_destinations]
  by_cases hmem : e.1 ∈ specs.map (groupKey concept)
  · rw [if_pos hmem] at hd
    exact Option.some.inj hd
  · rw [if_neg hmem] at hd
    exact absurd hd (by simp)

theorem key_to_job (specs : List SpecDict) (concept : String)
    (campaign smp : Option String) (k : String)
    (hk : k ∈ specs.map (groupKey concept)) :
    ∃ a,
      Briefing.alookup (buildLoop concept campaign smp 0 specs []) k = some a ∧
      postProcess a ∈ group_specs_by_creative specs concept campaign smp ∧
      (postProcess a).destinations =
        classDests concept k (Briefing.indexed 0 specs) := by
  have hd := destsAt_buildLoop concept campaign smp specs 0 [] k
  rw [show destsAt ([] : Groups) k = none from rfl] at hd
  rw [if_pos hk] at hd
  unfold destsAt at hd
  rcases ha : Briefing.alookup (buildLoop concept campaign smp 0 specs []) k
    with _ | a
  · rw [ha] at hd; exact absurd hd (by simp)
  · rw [ha] at hd
    refine ⟨a, rfl, ?_, ?_⟩
    · unfold group_specs_by_creative
      exact List.mem_map.mpr ⟨(k, a), Briefing.alookup_mem ha, rfl⟩
    · rw [postProcess_destinations]
      exact Option.some.inj hd

theorem foldl_appendSpec_dests :
    ∀ (ps : List (Nat × SpecDict)) (acc : GroupAcc),
      ((ps.foldl (fun a p => appendSpec p.1 p.2 a) acc).job.destinations) =
        acc.job.destinations ++ ps.map (fun p => mkDestination p.1 p.2) := by
  intro ps
  induction ps with
  | nil => intro acc; simp
  | cons p rest ih =>
    intro acc
    rw [List.foldl_cons, ih]
    simp [appendSpec, List.append_assoc]

theorem buildLoop_single (c : String) (cm smp : Option String) :
    ∀ (specs : List SpecDict) (idx : Nat) (k : String) (acc : GroupAcc),
      (∀ s ∈ specs, groupKey c s = k) →
      buildLoop c cm smp idx specs [(k, acc)] =
        [(k, (Briefing.indexed idx specs).foldl
          (fun a p => appendSpec p.1 p.2 a) acc)] := by
  intro specs
  induction specs with
  | nil => intro idx k acc _; rfl
  | cons spec rest ih =>
    intro idx k acc hk
    have hkey : groupKey c spec = k := hk spec (List.mem_cons_self _ _)
    show buildLoop c cm smp (idx + 1) rest
      (stepSpec c cm smp idx spec [(k, acc)]) = _
    have hstep : stepSpec c cm smp idx spec [(k, acc)] =
        [(k, appendSpec idx spec acc)] := by
      unfold stepSpec
      simp [Briefing.alookup, Briefing.aupdate, hkey]
    rw [hstep, ih (idx + 1) k (appendSpec idx spec acc)
      (fun s hs => hk s (List.mem_cons_of_mem _ hs))]
    simp [Briefing.indexed]

end MatrixBuilder

namespace MatrixBuilder

/-- C1: (i) when every selected spec shares one
(dimensions, file-type, creative-concept) triple, the builder returns
exactly one job whose destinations are one `DeliveryDestination` per input
spec, in input order; (ii) the destinations of two specs sharing a triple
always land in the same returned job; (iii) each spec's destination lies in
exactly one returned job. -/
theorem one_job_per_triple :
    (∀ (specs : List SpecDict) (concept : String) (campaign smp : Option String)
       (t : String × String × String),
       specs ≠ [] → (∀ s ∈ specs, specTriple concept s = t) →
       (group_specs_by_creative specs concept campaign smp).map
           ProductionJob.destinations =
         [(Briefing.indexed 0 specs).map (fun p => mkDestination p.1 p.2)]) ∧
    (∀ (specs : List SpecDict) (concept : String) (campaign smp : Option String)
       (i j : Nat) (hi : i < specs.length) (hj : j < specs.length),
       specTriple concept (specs.get ⟨i, hi⟩) =
         specTriple concept (specs.get ⟨j, hj⟩) →
       ∀ job ∈ group_specs_by_creative specs concept campaign smp,
         (mkDestination i (specs.get ⟨i, hi⟩) ∈ job.destinations ↔
          mkDestination j (specs.get ⟨j, hj⟩) ∈ job.destinations)) ∧
    (∀ (specs : List SpecDict) (concept : String) (campaign smp : Option String)
       (i : Nat) (hi : i < specs.length),
       ∃! job, job ∈ group_specs_by_creative specs concept campaign smp ∧
         mkDestination i (specs.get ⟨i, hi⟩) ∈ job.destinations) := by
  refine ⟨?_, ?_, ?_⟩
  · intro specs concept campaign smp t hne hsame
    obtain ⟨s0, rest, rfl⟩ := List.exists_cons_of_ne_nil hne
    have hkey : ∀ s ∈ rest, groupKey concept s = groupKey concept s0 := by
      intro s hs
      exact groupKey_eq_of_triple_eq
        ((hsame s (List.mem_cons_of_mem _ hs)).trans
          (hsame s0 (List.mem_cons_self _ _)).symm)
    unfold group_specs_by_creative
    have hstep : stepSpec concept campaign smp 0 s0 [] =
        [(groupKey concept s0,
          appendSpec 0 s0 ⟨mkJob concept campaign smp 0 s0, [], []⟩)] := by
      unfold stepSpec
      simp [Briefing.alookup, Briefing.aupdate]
    rw [show buildLoop concept campaign smp 0 (s0 :: rest) [] =
        buildLoop concept campaign smp 1 rest
          (stepSpec concept campaign smp 0 s0 []) from rfl]
    rw [hstep, buildLoop_single concept campaign smp rest 1
      (groupKey concept s0) _ hkey]
    simp only [List.map_cons, List.map_nil]
    rw [postProcess_destinations, foldl_appendSpec_dests]
    simp [appendSpec, mkJob, Briefing.indexed]
  · intro specs concept campaign smp i j hi hj ht job hjob
    obtain ⟨k, a, hka, rfl, hdests⟩ :=
      job_class specs concept campaign smp job hjob
    rw [hdests]
    have hgk := groupKey_eq_of_triple_eq ht
    constructor
    · intro hmem
      obtain ⟨i2, s2, _, hk2, hd2⟩ := mem_classDests.mp hmem
      have hik : groupKey concept (specs.get ⟨i, hi⟩) = k :=
        (groupKey_eq_of_mkDestination_eq concept hd2).symm.trans hk2
      apply mem_classDests.mpr
      refine ⟨j, specs.get ⟨j, hj⟩, ?_, hgk ▸ hik, rfl⟩
      simpa using Briefing.mem_indexed_of_get specs 0 j hj
    · intro hmem
      obtain ⟨i2, s2, _, hk2, hd2⟩ := mem_classDests.mp hmem
      have hjk : groupKey concept (specs.get ⟨j, hj⟩) = k :=
        (groupKey_eq_of_mkDestination_eq concept hd2).symm.trans hk2
      apply mem_classDests.mpr
      refine ⟨i, specs.get ⟨i, hi⟩, ?_, hgk.symm ▸ hjk, rfl⟩
      simpa using Briefing.mem_indexed_of_get specs 0 i hi
  · intro specs concept campaign smp i hi
    have hk : groupKey concept (specs.get ⟨i, hi⟩) ∈
        specs.map (groupKey concept) :=
      List.mem_map_of_mem _ (specs.get_mem _ _)
    obtain ⟨a, ha, hmem, hdests⟩ :=
      key_to_job specs concept campaign smp _ hk
    refine ⟨postProcess a, ⟨hmem, ?_⟩, ?_⟩
    · rw [hdests]
      apply mem_classDests.mpr
      exact ⟨i, specs.get ⟨i, hi⟩,
        by simpa using Briefing.mem_indexed_of_get specs 0 i hi, rfl, rfl⟩
    · rintro job2 ⟨hjob2, hdest2⟩
      obtain ⟨k2, a2, hka2, rfl, hdests2⟩ :=
        job_class specs concept campaign smp job2 hjob2
      rw [hdests2] at hdest2
      obtain ⟨i2, s2, _, hk2, hd2⟩ := mem_classDests.mp hdest2
      have hkk : groupKey concept (specs.get ⟨i, hi⟩) = k2 :=
        (groupKey_eq_of_mkDestination_eq concept hd2).symm.trans hk2
      rw [← hkk] at hka2
      rw [Option.some.inj (hka2.symm.trans ha)]

/-- Witness for C1 on the two-spec sample input sharing the triple
`(1080x1920, mp4, Summer Sale)`. -/
theorem one_job_per_triple_witness :
    (group_specs_by_creative demoSpecs "Summer Sale" none none).map
        ProductionJob.destinations =
      [(Briefing.indexed 0 demoSpecs).map (fun p => mkDestination p.1 p.2)] :=
  one_job_per_triple.1 demoSpecs "Summer Sale" none none
    ("1080x1920", "mp4", "Summer Sale") (by decide) (by decide)

end MatrixBuilder

namespace FeedValidator

theorem vtl_severity_warning (text : String) (m : Nat) (f r : String)
    (h0 : text.length ≠ 0) (h1 : ¬text.length > m)
    (h2 : 10 * text.length > 9 * m) :
    (validate_text_length text m f r).map (fun i => i.severity) =
      some .warning := by
  have hne : text ≠ "" := by
    intro he
    subst he
    exact h0 rfl
  unfold validate_text_length
  rw [if_neg hne, if_neg h1, if_pos h2]
  rfl

theorem vtl_severity_error (text : String) (m : Nat) (f r : String)
    (h1 : text.length > m) :
    (validate_text_length text m f r).map (fun i => i.severity) =
      some .error := by
  have hne : text ≠ "" := by
    intro he
    subst he
    simp at h1
  unfold validate_text_length
  rw [if_neg hne, if_pos h1]
  rfl

/-- C3 counterexample: on Flashtalking (`max_headline_length = 40`), a row
whose headline has exactly 40 characters receives one warning issue for the
headline field — not zero issues as the claim states. -/
theorem validate_feed_exact_max_counterexample :
    ((validate_feed [demoFeedRow40] "flashtalking").issues.filter
      (fun i => i.field = "headline")).map (fun i => i.severity) =
      [ValidationSeverity.warning] := by
  decide

/-- C3 (amended): for every platform with a declared `max_headline_length`,
a text of length exactly the maximum yields exactly one warning and zero
errors (the warning band `length > 0.9 * max` includes the maximum itself);
length `max + 1` yields exactly one error; length `round(0.95 * max)`
yields exactly one warning and zero errors. -/
theorem text_length_thresholds (p : String) (c : PlatformConstraints)
    (hp : platformConstraints p = some c) (text field_name row_id : String) :
    (text.length = c.max_headline_length →
      (validate_text_length text c.max_headline_length field_name row_id).map
        (fun i => i.severity) = some .warning) ∧
    (text.length = c.max_headline_length + 1 →
      (validate_text_length text c.max_headline_length field_name row_id).map
        (fun i => i.severity) = some .error) ∧
    (text.length = round95 c.max_headline_length →
      (validate_text_length text c.max_headline_length field_name row_id).map
        (fun i => i.severity) = some .warning) := by
  have hcases : c.max_headline_length = 40 ∨ c.max_headline_length = 50 ∨
      c.max_headline_length = 45 ∨ c.max_headline_length = 60 ∨
      c.max_headline_length = 30 := by
    unfold platformConstraints at hp
    split_ifs at hp <;>
      (rw [Option.some.injEq] at hp
       subst hp
       simp [flashtalkingConstraints, innovidConstraints,
         celtraConstraints, storyteqConstraints, googleStudioConstraints])
  refine ⟨?_, ?_, ?_⟩ <;> intro hlen
  · rcases hcases with h | h | h | h | h <;>
      rw [h] at hlen <;>
      exact vtl_severity_warning text _ field_name row_id (by omega)
        (by rw [h]; omega) (by rw [h]; omega)
  · exact vtl_severity_error text _ field_name row_id (by omega)
  · rcases hcases with h | h | h | h | h <;>
      rw [h] at hlen <;>
      norm_num [round95] at hlen <;>
      exact vtl_severity_warning text _ field_name row_id (by omega)
        (by rw [h]; omega) (by rw [h]; omega)

/-- Witness for C3 (amended) on Flashtalking with a 41-character headline. -/
theorem text_length_thresholds_witness :
    (validate_text_length "AAAAAAAAAAAAAAAAAAAAAAAAAAAAAAAAAAAAAAAAA" 40
      "headline" "r1").map (fun i => i.severity) =
      some ValidationSeverity.error :=
  (text_length_thresholds "flashtalking" flashtalkingConstraints (by decide)
    "AAAAAAAAAAAAAAAAAAAAAAAAAAAAAAAAAAAAAAAAA" "headline" "r1").2.1 (by decide)

end FeedValidator

namespace MatrixGenerator

theorem planLoop_assets (strategy : StrategicMatrixRow)
    (concept : CreativeConcept) (sar ai : Option String) (batchId : String)
    (assetIds : Nat → String) :
    ∀ (env_ids : List String) (k : Nat)
      (store : List (String × ProductionAsset)),
      (planLoop strategy concept sar ai batchId assetIds env_ids k store).1 =
        (Briefing.indexed k (resolvedEnvs env_ids)).map
          (fun p => mkAsset strategy concept sar ai batchId (assetIds p.1)
            p.2.1 p.2.2) := by
  intro env_ids
  induction env_ids with
  | nil => intro k store; rfl
  | cons e rest ih =>
    intro k store
    rcases hs : get_spec_by_id e with _ | spec
    · simp only [planLoop, hs]
      rw [ih]
      simp [resolvedEnvs, hs]
    · simp only [planLoop, hs]
      rw [ih]
      simp [resolvedEnvs, hs, Briefing.indexed]

/-- C8: `generate_production_plan` always constructs one batch and stores
exactly that one batch (also for an empty environment list, which yields an
empty asset list), and returns exactly one asset per environment id that
resolves in the spec library, in list order; unresolved ids are skipped and
the embedding is total (no error path). -/
theorem production_plan_shape (campaign_id : String)
    (strategy : StrategicMatrixRow) (concept : CreativeConcept)
    (batch_name sar ai : Option String) (batchId : String)
    (assetIds : Nat → String) (batches : List (String × ProductionBatch))
    (assetStore : List (String × ProductionAsset))
    (hfresh : Briefing.alookup batches batchId = none) :
    (generate_production_plan campaign_id strategy concept batch_name sar ai
        batchId assetIds batches assetStore).1.1 =
      mkBatch campaign_id strategy concept batch_name batchId ∧
    (generate_production_plan campaign_id strategy concept batch_name sar ai
        batchId assetIds batches assetStore).2.1 =
      batches ++
        [(batchId, mkBatch campaign_id strategy concept batch_name batchId)] ∧
    (generate_production_plan campaign_id strategy concept batch_name sar ai
        batchId assetIds batches assetStore).1.2 =
      (Briefing.indexed 0 (resolvedEnvs strategy.platform_environments)).map
        (fun p => mkAsset strategy concept sar ai batchId (assetIds p.1)
          p.2.1 p.2.2) := by
  have hput : storePut batches batchId
      (mkBatch campaign_id strategy concept batch_name batchId) =
      batches ++
        [(batchId, mkBatch campaign_id strategy concept batch_name batchId)] := by
    unfold storePut
    rw [hfresh]
    rfl
  unfold generate_production_plan
  by_cases he : strategy.platform_environments = []
  · rw [if_pos he]
    refine ⟨rfl, hput, ?_⟩
    rw [he]
    rfl
  · rw [if_neg he]
    exact ⟨rfl, hput,
      planLoop_assets strategy concept sar ai batchId assetIds
        strategy.platform_environments 0 assetStore⟩

/-- Witness for C8 on a strategy with two resolvable environment ids and
one unknown id, against empty stores. -/
theorem production_plan_shape_witness :
    (generate_production_plan "c1" demoStrategy demoConcept none none none
        "B1" (fun k => "A" ++ toString k) [] []).1.1 =
      mkBatch "c1" demoStrategy demoConcept none "B1" ∧
    (generate_production_plan "c1" demoStrategy demoConcept none none none
        "B1" (fun k => "A" ++ toString k) [] []).2.1 =
      [] ++ [("B1", mkBatch "c1" demoStrategy demoConcept none "B1")] ∧
    (generate_production_plan "c1" demoStrategy demoConcept none none none
        "B1" (fun k => "A" ++ toString k) [] []).1.2 =
      (Briefing.indexed 0 (resolvedEnvs demoStrategy.platform_environments)).map
        (fun p => mkAsset demoStrategy demoConcept none none "B1"
          ((fun k => "A" ++ toString k) p.1) p.2.1 p.2.2) :=
  production_plan_shape "c1" demoStrategy demoConcept none none none "B1"
    (fun k => "A" ++ toString k) [] [] rfl

end MatrixGenerator
